import Mathlib

/-!
Shallow embedding of the Devcon event-registration backend
(FastAPI/SQLAlchemy application) for specification verification.

Conventions of the embedding:
* database tables become Lean lists of records; a SQLAlchemy
  `query.filter(...).first()` becomes `List.find?`, and a mutation of the
  row returned by `.first()` becomes `updateFirst` (replace the first
  matching element);
* Python `Optional` values become `Option`; `datetime.now()` becomes an
  explicit `now : Nat` tick passed in; `float` amounts become `Rat`
  (exact for every literal in the source);
* an endpoint raising `HTTPException` becomes `Except` with an error
  constructor per distinct failure site (the request aborts before any
  state change, so the error branch carries no state).
-/

namespace Devcon

/-! ## Roles — app/schemas/user.py `UserRole` -/

inductive UserRole where
  | participant
  | ambassador
  | registration_team
  | admin
deriving DecidableEq, Repr

/-- app/auth/dependencies.py `require_role`: the list `allowed_roles`
built for a given `required_role` (admin always included, plus the two
cross-grant cases). -/
def require_role_allowed (required_role : UserRole) : List UserRole :=
  [required_role, UserRole.admin] ++
    (if required_role = UserRole.ambassador then
      [UserRole.participant, UserRole.registration_team]
    else if required_role = UserRole.registration_team then
      [UserRole.participant, UserRole.ambassador]
    else [])

/-- app/auth/dependencies.py `require_role`: the role gate passes iff the
callers role is in `allowed_roles` (otherwise 403 Forbidden). -/
def require_role (required_role caller_role : UserRole) : Bool :=
  decide (caller_role ∈ require_role_allowed required_role)

/-! ## Payment data model — app/models/payment.py -/

inductive PaymentMethod where
  | online
  | cash
deriving DecidableEq, Repr

inductive PaymentStatus where
  | pending
  | verified
  | rejected
  | pending_cash
deriving DecidableEq, Repr

structure Payment where
  id : Nat
  participant_id : Nat
  team_id : Option Nat
  amount : Rat
  payment_method : PaymentMethod
  status : PaymentStatus
  transaction_id : Option String
  receipt_path : Option String
  uploaded_at : Option Nat
  verified_by : Option Nat
  verified_at : Option Nat
deriving DecidableEq, Repr

/-- Replace the first element satisfying `pred` by its image under `f`
(models mutating the row returned by `query.filter(...).first()`). -/
def updateFirst {α : Type} (pred : α → Bool) (f : α → α) : List α → List α
  | [] => []
  | x :: xs => if pred x then f x :: xs else x :: updateFirst pred f xs

/-- app/crud/payment.py `get_payment_by_id`. -/
def get_payment_by_id (db : List Payment) (payment_id : Nat) : Option Payment :=
  db.find? (fun p => p.id == payment_id)

/-- app/crud/payment.py `get_payment_by_participant`. -/
def get_payment_by_participant (db : List Payment) (participant_id : Nat) :
    Option Payment :=
  db.find? (fun p => p.participant_id == participant_id)

/-! ## Payment operations — app/crud/payment.py -/

/-- app/crud/payment.py `create_payment`: initial status chosen by
method (online → pending, otherwise → pending_cash); `uploaded_at` set
iff a receipt path is given.  `db.add` appends the new row; the fresh
primary key is passed as `id`.  Returns the created row and the new
table state. -/
def create_payment (db : List Payment) (id participant_id : Nat)
    (team_id : Option Nat) (amount : Rat) (payment_method : PaymentMethod)
    (transaction_id receipt_path : Option String) (now : Nat) :
    Payment × List Payment :=
  let status :=
    if payment_method = PaymentMethod.online then PaymentStatus.pending
    else PaymentStatus.pending_cash
  let db_payment : Payment :=
    { id := id
      participant_id := participant_id
      team_id := team_id
      amount := amount
      payment_method := payment_method
      status := status
      transaction_id := transaction_id
      receipt_path := receipt_path
      uploaded_at := if receipt_path.isSome then some now else none
      verified_by := none
      verified_at := none }
  (db_payment, db ++ [db_payment])

/-- Python truthiness of an `Optional[int]` (`None` and `0` are falsy),
as used by `update_payment_status` in `if ... and verified_by:`. -/
def truthyOptNat : Option Nat → Bool
  | none => false
  | some n => n != 0

/-- app/crud/payment.py `update_payment_status`: sets the status of the
row with the given id; records verifier and time only when the new
status is verified and `verified_by` is truthy.  Returns the (updated)
row, if any, and the new table state. -/
def update_payment_status (db : List Payment) (payment_id : Nat)
    (status : PaymentStatus) (verified_by : Option Nat) (now : Nat) :
    Option Payment × List Payment :=
  match get_payment_by_id db payment_id with
  | none => (none, db)
  | some payment =>
    let p1 := { payment with status := status }
    let p2 :=
      if status = PaymentStatus.verified ∧ truthyOptNat verified_by then
        { p1 with verified_by := verified_by, verified_at := some now }
      else p1
    (some p2, updateFirst (fun q => q.id == payment_id) (fun _ => p2) db)

/-- app/crud/payment.py `verify_cash_payment`: looks the payment up by
participant; if it exists and its method is cash, sets status verified
and records verifier and time.  Note: the prior status is NOT examined,
and a non-cash payment is returned unchanged (not `None`). -/
def verify_cash_payment (db : List Payment) (participant_id ambassador_id now : Nat) :
    Option Payment × List Payment :=
  match get_payment_by_participant db participant_id with
  | none => (none, db)
  | some payment =>
    if payment.payment_method = PaymentMethod.cash then
      let updated :=
        { payment with
            status := PaymentStatus.verified
            verified_by := some ambassador_id
            verified_at := some now }
      (some updated,
        updateFirst (fun q => q.participant_id == participant_id)
          (fun _ => updated) db)
    else
      (some payment, db)

/-- app/crud/payment.py `verify_online_payment`: looks the payment up by
id; if it exists and its method is online, approve sets status verified
with verifier and time, reject sets status rejected and touches nothing
else.  The prior status is NOT examined; a non-online payment is
returned unchanged. -/
def verify_online_payment (db : List Payment) (payment_id : Nat)
    (approve : Bool) (admin_id : Option Nat) (now : Nat) :
    Option Payment × List Payment :=
  match get_payment_by_id db payment_id with
  | none => (none, db)
  | some payment =>
    if payment.payment_method = PaymentMethod.online then
      let updated :=
        if approve then
          { payment with
              status := PaymentStatus.verified
              verified_by := admin_id
              verified_at := some now }
        else
          { payment with status := PaymentStatus.rejected }
      (some updated,
        updateFirst (fun q => q.id == payment_id) (fun _ => updated) db)
    else
      (some payment, db)

/-! ## Participants, teams and settings — app/models, app/config.py -/

/-- app/models/participant.py `Participant` (the columns the verified
operations read or write; the remaining columns are inert free-text
registration data that no claim mentions). -/
structure Participant where
  id : Nat
  user_id : Nat
  team_id : Option Nat
  is_team_lead : Bool
deriving DecidableEq, Repr

/-- app/models/team.py `Team` (columns used by the team operations). -/
structure Team where
  id : Nat
  name : String
  code : String
  track : String
deriving DecidableEq, Repr

/-- app/config.py `Settings` (the configuration the modelled operations
read). -/
structure Settings where
  TEAM_MAX_SIZE : Nat
  REGISTRATION_FEE : Rat
deriving DecidableEq, Repr

/-- app/config.py: the default values (`TEAM_MAX_SIZE` env default "5",
`REGISTRATION_FEE` env default "1000.0"). -/
def defaultSettings : Settings :=
  { TEAM_MAX_SIZE := 5, REGISTRATION_FEE := 1000 }

/-- app/crud/participant.py `get_participant_by_user_id`. -/
def get_participant_by_user_id (participants : List Participant) (user_id : Nat) :
    Option Participant :=
  participants.find? (fun pt => pt.user_id == user_id)

/-! ## Team join — app/crud/team.py -/

/-- The two `ValueError` failures of app/crud/team.py `join_team`. -/
inductive TeamJoinError where
  | invalidTeamCode
  | teamFull
deriving DecidableEq, Repr

/-- app/crud/team.py `join_team`: look the team up by code (ValueError
"Invalid team code" if absent), count current members, fail with
ValueError "Team is full" when `current_members >= settings.TEAM_MAX_SIZE`,
otherwise set the joining participants `team_id` (the `is_team_lead`
flag is not touched; a missing participant row is silently ignored). -/
def join_team (s : Settings) (teams : List Team)
    (participants : List Participant) (team_code : String)
    (participant_id : Nat) :
    Except TeamJoinError (Team × List Participant) :=
  match teams.find? (fun t => t.code == team_code) with
  | none => Except.error TeamJoinError.invalidTeamCode
  | some team =>
    let current_members :=
      (participants.filter (fun pt => pt.team_id == some team.id)).length
    if s.TEAM_MAX_SIZE ≤ current_members then
      Except.error TeamJoinError.teamFull
    else
      Except.ok (team,
        updateFirst (fun pt => pt.id == participant_id)
          (fun pt => { pt with team_id := some team.id }) participants)

/-- Number of participant rows attached to team `tid`
(`db.query(Participant).filter(Participant.team_id == team.id).count()`). -/
def teamMemberCount (participants : List Participant) (tid : Nat) : Nat :=
  (participants.filter (fun pt => pt.team_id == some tid)).length

/-! ## Payment endpoints — app/api/v1/endpoints/payments.py -/

/-- The `HTTPException` outcomes of the modelled endpoints, one constructor
per distinct failure site, carrying the `detail` string of the source. -/
inductive ApiError where
  | notFound (detail : String)
  | badRequest (detail : String)
  | validationError (detail : String)
  | internalError (detail : String)
deriving DecidableEq, Repr

/-- payments.py `select_cash_payment` (`POST /payments/select-cash`):
409-style conflict (HTTP 400) when a payment already exists for the
caller, otherwise creates a cash payment for the registration fee with
the callers team reference.  `caller_id` is the id of the authenticated
participant; `new_id` the fresh primary key; the source resolves the
team via `get_participant_by_user_id(db, current_user.id)`. -/
def select_cash_payment (participants : List Participant)
    (db : List Payment) (s : Settings) (caller_id new_id now : Nat) :
    Except ApiError (Payment × List Payment) :=
  if (get_payment_by_participant db caller_id).isSome then
    Except.error (ApiError.badRequest "Payment already exists for this participant")
  else
    let participant := get_participant_by_user_id participants caller_id
    let (payment, db1) :=
      create_payment db new_id caller_id
        (participant.bind (fun pt => pt.team_id)) s.REGISTRATION_FEE
        PaymentMethod.cash none none now
    Except.ok (payment, db1)

/-- payments.py `upload_payment_receipt` (`POST /payments/upload-receipt`):
file validation first (modelled by the boolean outcome `file_ok` of
`validate_file_upload`), then the duplicate-payment conflict check, then
creation of an online payment with the given amount, transaction id and
saved receipt path. -/
def upload_payment_receipt (participants : List Participant)
    (db : List Payment) (file_ok : Bool) (amount : Rat)
    (transaction_id : Option String) (receipt_path : String)
    (caller_id new_id now : Nat) :
    Except ApiError (Payment × List Payment) :=
  if !file_ok then
    Except.error (ApiError.validationError "File type not allowed or too large")
  else if (get_payment_by_participant db caller_id).isSome then
    Except.error (ApiError.badRequest "Payment already exists for this participant")
  else
    let participant := get_participant_by_user_id participants caller_id
    let (payment, db1) :=
      create_payment db new_id caller_id
        (participant.bind (fun pt => pt.team_id)) amount
        PaymentMethod.online transaction_id (some receipt_path) now
    Except.ok (payment, db1)

/-- payments.py `register_cash_payment_manual` (`POST /payments/register-cash`):
conflict check, then creation of a cash payment (team left `None`),
immediately followed by `update_payment_status(..., VERIFIED,
verified_by=team_member.id)`.  The endpoint returns whatever
`update_payment_status` returns. -/
def register_cash_payment_manual (db : List Payment)
    (participant_id : Nat) (amount : Rat) (team_member_id new_id now : Nat) :
    Except ApiError (Option Payment × List Payment) :=
  if (get_payment_by_participant db participant_id).isSome then
    Except.error (ApiError.badRequest "Payment already exists for this participant")
  else
    let (payment, db1) :=
      create_payment db new_id participant_id none amount
        PaymentMethod.cash none none now
    let (payment2, db2) :=
      update_payment_status db1 payment.id PaymentStatus.verified
        (some team_member_id) now
    Except.ok (payment2, db2)

/-- payments.py `verify_cash_payment_endpoint` (`POST /payments/verify-cash`):
calls crud `verify_cash_payment` and raises 404 only when it returned
`None` (payment absent); any returned payment — also an online one left
untouched — is a success response. -/
def verify_cash_payment_endpoint (db : List Payment)
    (participant_id ambassador_id now : Nat) :
    Except ApiError (Payment × List Payment) :=
  match verify_cash_payment db participant_id ambassador_id now with
  | (none, _) =>
    Except.error (ApiError.notFound "Payment not found or not a cash payment")
  | (some payment, db1) => Except.ok (payment, db1)

/-! ## Ambassador verify-cash endpoint — app/api/v1/endpoints/ambassador.py -/

/-- ambassador.py `verify_cash_payment_endpoint`
(`POST /ambassador/verify-cash/{participant_id}`): 404 when the
participant or their payment is absent, 400 when the method is not cash
or the status is not pending_cash, otherwise crud `verify_cash_payment`
performs the transition (the QR generation and email that follow are
side channels outside the database model). -/
def ambassador_verify_cash (participants : List Participant)
    (db : List Payment) (participant_id ambassador_id now : Nat) :
    Except ApiError (Payment × List Payment) :=
  match participants.find? (fun pt => pt.id == participant_id) with
  | none => Except.error (ApiError.notFound "Participant not found")
  | some _ =>
    match get_payment_by_participant db participant_id with
    | none =>
      Except.error (ApiError.notFound "No payment record found for this participant")
    | some payment =>
      if payment.payment_method ≠ PaymentMethod.cash then
        Except.error
          (ApiError.badRequest "This participant did not select cash payment method")
      else if payment.status ≠ PaymentStatus.pending_cash then
        Except.error (ApiError.badRequest "Payment status cannot be verified")
      else
        match verify_cash_payment db participant_id ambassador_id now with
        | (none, _) =>
          Except.error (ApiError.internalError "Failed to verify payment")
        | (some p, db1) => Except.ok (p, db1)

/-! ## Check-in — app/models/event.py and app/api/v1/endpoints/admin.py -/

/-- app/models/event.py `CheckIn`. -/
structure CheckIn where
  participant_id : Nat
  event_type : String
  checked_by : Nat
  checked_in_at : Nat
deriving DecidableEq, Repr

/-- Failure sites of admin.py `check_in_participant`. -/
inductive CheckInError where
  | participantNotFound
  | paymentNotVerified
  | alreadyCheckedIn
deriving DecidableEq, Repr

/-- admin.py `check_in_participant` (`POST /admin/check-in`), from the
participant lookup on (the QR payload validation that precedes it is
`verify_qr_code`, modelled separately; an invalid payload aborts the
request with 400 before any state is read or written):
404 when the participant is absent; 400 "Participant payment not
verified" when the payment is absent or not verified; 400 when a
CheckIn for the same (participant, event_type) pair exists; otherwise
appends a new CheckIn row. -/
def check_in_participant (participants : List Participant)
    (payments : List Payment) (checkins : List CheckIn)
    (participant_id : Nat) (event_type : String) (admin_id now : Nat) :
    Except CheckInError (CheckIn × List CheckIn) :=
  match participants.find? (fun pt => pt.id == participant_id) with
  | none => Except.error CheckInError.participantNotFound
  | some _ =>
    let payment := get_payment_by_participant payments participant_id
    if !(payment.any (fun p => p.status == PaymentStatus.verified)) then
      Except.error CheckInError.paymentNotVerified
    else if (checkins.find? (fun c =>
        c.participant_id == participant_id && c.event_type == event_type)).isSome then
      Except.error CheckInError.alreadyCheckedIn
    else
      let check_in : CheckIn :=
        { participant_id := participant_id
          event_type := event_type
          checked_by := admin_id
          checked_in_at := now }
      Except.ok (check_in, checkins ++ [check_in])

/-! ## QR payloads — app/utils/qr_code.py

The QR artifact content is the `json.dumps` of a Python dict; we embed
the parsed JSON value directly (`Option Json`, with `none` standing for
a string `json.loads` rejects, i.e. the `JSONDecodeError` branch).
Objects are association lists; `json.loads` produces duplicate-free
dicts, for which the first binding is the binding.  Python operations
used by `verify_qr_code` that can raise on non-dict values are embedded
in `Except PyErr`. -/

inductive Json where
  | null
  | bool (b : Bool)
  | num (n : Int)
  | str (s : String)
  | arr (xs : List Json)
  | obj (kvs : List (String × Json))

/-- Uncaught Python exceptions reachable in `verify_qr_code` (only
`json.JSONDecodeError` is caught by the source). -/
inductive PyErr where
  | typeError
  | attributeError
deriving DecidableEq, Repr

/-- Python `j == s` for a JSON value against a string literal: true only
for an equal string (a value of any other type never equals a `str`). -/
def jsonEqStr (j : Json) (s : String) : Bool :=
  match j with
  | Json.str t => t == s
  | _ => false

/-- Python `field in x`: key membership for dicts, element equality for
lists, substring for strings, `TypeError` for non-iterables. -/
def pyContains (j : Json) (field : String) : Except PyErr Bool :=
  match j with
  | Json.obj kvs => Except.ok (kvs.any (fun kv => kv.1 == field))
  | Json.arr xs => Except.ok (xs.any (fun x => jsonEqStr x field))
  | Json.str s => Except.ok (decide (field.toList <:+: s.toList))
  | _ => Except.error PyErr.typeError

/-- Python `all(field in j for field in fields)`: short-circuiting, so
the first raising membership test propagates. -/
def allFieldsIn (fields : List String) (j : Json) : Except PyErr Bool :=
  match fields with
  | [] => Except.ok true
  | f :: fs => do
    let b ← pyContains j f
    if b then allFieldsIn fs j else Except.ok false

/-- Dict lookup with default (`dict.get`). -/
def objGet (kvs : List (String × Json)) (key : String) (default : Json) : Json :=
  match kvs.find? (fun kv => kv.1 == key) with
  | some kv => kv.2
  | none => default

/-- Python `j.get(key, default)`: only dicts have `.get`; every other
value raises `AttributeError`. -/
def pyGet (j : Json) (key : String) (default : Json) : Except PyErr Json :=
  match j with
  | Json.obj kvs => Except.ok (objGet kvs key default)
  | _ => Except.error PyErr.attributeError

/-- Python truthiness of a JSON value. -/
def pyTruthy : Json → Bool
  | Json.null => false
  | Json.bool b => b
  | Json.num n => n != 0
  | Json.str s => s != ""
  | Json.arr xs => !xs.isEmpty
  | Json.obj kvs => !kvs.isEmpty

/-- The event identifier literal of qr_code.py (`"Devcon \x2726"`). -/
def devconEvent : String := "Devcon \x2726"

/-- qr_code.py `verify_qr_code`: `required_fields`. -/
def required_fields : List String :=
  ["participant_id", "name", "email", "track", "event"]

/-- Result dict of `verify_qr_code`. -/
inductive QrVerifyResult where
  | invalid (error : String)
  | valid (data : Json)

/-- qr_code.py `verify_qr_code`: `none` input models a payload
`json.loads` rejects (caught, yielding invalid); then the
required-fields membership check, the event identifier check
(`qr_data.get("event") != "Devcon \x2726"`), and the validity flag
truthiness check (`not qr_data.get("valid", False)`). -/
def verify_qr_code (input : Option Json) : Except PyErr QrVerifyResult :=
  match input with
  | none => Except.ok (QrVerifyResult.invalid "Invalid QR code data")
  | some qr_data => do
    let all_present ← allFieldsIn required_fields qr_data
    if !all_present then
      Except.ok (QrVerifyResult.invalid "Invalid QR code format")
    else do
      let ev ← pyGet qr_data "event" Json.null
      if !(jsonEqStr ev devconEvent) then
        Except.ok (QrVerifyResult.invalid "Invalid event")
      else do
        let v ← pyGet qr_data "valid" (Json.bool false)
        if !(pyTruthy v) then
          Except.ok (QrVerifyResult.invalid "QR code has been invalidated")
        else
          Except.ok (QrVerifyResult.valid qr_data)

/-- qr_code.py `generate_qr_code`: the `qr_data` dict the ticket
encodes (image rendering and the file path are outside the data model;
`generated_at` is the iso-format timestamp string). -/
def qr_payload (participant_id : Nat) (user_name email track : String)
    (team_name : Option String) (generated_at : String) : Json :=
  Json.obj
    [("participant_id", Json.num participant_id),
     ("name", Json.str user_name),
     ("email", Json.str email),
     ("track", Json.str track),
     ("team", match team_name with
              | some t => Json.str t
              | none => Json.null),
     ("event", Json.str devconEvent),
     ("generated_at", Json.str generated_at),
     ("valid", Json.bool true)]

/-! ## Concrete example rows (used by witnesses and counterexamples) -/

/-- A cash payment already in the rejected state. -/
def cashRejectedPayment : Payment :=
  { id := 1, participant_id := 2, team_id := none, amount := 1000,
    payment_method := PaymentMethod.cash, status := PaymentStatus.rejected,
    transaction_id := none, receipt_path := none, uploaded_at := none,
    verified_by := none, verified_at := none }

/-- A cash payment awaiting in-person collection. -/
def cashPendingPayment : Payment :=
  { cashRejectedPayment with status := PaymentStatus.pending_cash }

/-- An online payment already in the rejected state. -/
def onlineRejectedPayment : Payment :=
  { cashRejectedPayment with payment_method := PaymentMethod.online }

/-- An online payment awaiting review. -/
def onlinePendingPayment : Payment :=
  { onlineRejectedPayment with status := PaymentStatus.pending }

/-- A participant row matching the example payments
(`participant_id = 2`). -/
def examplePt : Participant :=
  { id := 2, user_id := 20, team_id := none, is_team_lead := false }

/-- An existing check-in row for the example participant. -/
def exampleCheckIn : CheckIn :=
  { participant_id := 2, event_type := "opening_ceremony",
    checked_by := 9, checked_in_at := 60 }

/-! ## Invariants -/

/-- Spec section 3 one-to-one invariant: at most one Payment row per participant. -/
def paymentsOneToOne (db : List Payment) : Prop :=
  (db.map (fun p => p.participant_id)).Nodup

/-- Spec section 3 check-in invariant: at most one CheckIn per
(participant, event_type) pair. -/
def checkInsUnique (checkins : List CheckIn) : Prop :=
  (checkins.map (fun c => (c.participant_id, c.event_type))).Nodup

/-! ## Helper lemmas about `updateFirst` -/

theorem mem_updateFirst {α : Type} {pred : α → Bool} {f : α → α}
    {l : List α} {x : α} (hx : x ∈ updateFirst pred f l) :
    x ∈ l ∨ ∃ y ∈ l, pred y = true ∧ x = f y := by
  induction l with
  | nil => simp [updateFirst] at hx
  | cons a as ih =>
    by_cases ha : pred a = true
    · simp [updateFirst, ha] at hx
      rcases hx with hx | hx
      · exact Or.inr ⟨a, by simp, ha, hx⟩
      · exact Or.inl (List.mem_cons_of_mem a hx)
    · simp [updateFirst, ha] at hx
      rcases hx with hx | hx
      · exact Or.inl (by simp [hx])
      · rcases ih hx with h | ⟨y, hy, hpy, hxy⟩
        · exact Or.inl (List.mem_cons_of_mem a h)
        · exact Or.inr ⟨y, List.mem_cons_of_mem a hy, hpy, hxy⟩

theorem map_updateFirst {α : Type} {β : Type} (g : α → β) (pred : α → Bool)
    (f : α → α) (l : List α) (h : ∀ y, g (f y) = g y) :
    (updateFirst pred f l).map g = l.map g := by
  induction l with
  | nil => rfl
  | cons a as ih =>
    by_cases ha : pred a = true
    · simp [updateFirst, ha, h a]
    · simp [updateFirst, ha, ih]

theorem length_filter_updateFirst_le {α : Type} (q : α → Bool)
    (pred : α → Bool) (f : α → α) (l : List α) :
    ((updateFirst pred f l).filter q).length ≤ (l.filter q).length + 1 := by
  induction l with
  | nil => simp [updateFirst]
  | cons a as ih =>
    by_cases ha : pred a = true
    · simp only [updateFirst, ha, if_pos]
      by_cases hq : q (f a) = true <;> by_cases hqa : q a = true <;>
        (simp [List.filter, hq, hqa]; try omega)
    · simp only [updateFirst, ha]
      by_cases hqa : q a = true <;> simp [List.filter, hqa] <;> omega

/-! ## C4 — role-authorization gate -/

/-- C4: the role gate is a total boolean function of (caller role,
required role); a caller `c` passes the gate for required role `r` iff
`c = r`, or `c` is admin, or `r` is ambassador and `c` is participant or
registration_team, or `r` is registration_team and `c` is participant or
ambassador; for required role admin only an admin caller passes. -/
theorem require_role_characterization :
    (∀ required caller : UserRole,
      require_role required caller = true ↔
        (caller = required ∨ caller = UserRole.admin ∨
          (required = UserRole.ambassador ∧
            (caller = UserRole.participant ∨ caller = UserRole.registration_team)) ∨
          (required = UserRole.registration_team ∧
            (caller = UserRole.participant ∨ caller = UserRole.ambassador))))
    ∧ (∀ caller : UserRole,
        require_role UserRole.admin caller = true ↔ caller = UserRole.admin) := by
  constructor
  · intro required caller
    cases required <;> cases caller <;> decide
  · intro caller
    cases caller <;> decide

theorem require_role_characterization_witness :
    require_role UserRole.admin UserRole.participant = false :=
  by
    have h := require_role_characterization.2 UserRole.participant
    simp at h
    simp [h]

/-! ## C6 — initial payment state -/

/-- C6: `create_payment` chooses the initial status from the method
(online → pending, cash → pending_cash) and stores the given
participant, team reference, amount, method, transaction reference and
receipt location verbatim; the new row is appended to the table. -/
theorem create_payment_initial_state (db : List Payment)
    (id participant_id : Nat) (team_id : Option Nat) (amount : Rat)
    (method : PaymentMethod) (transaction_id receipt_path : Option String)
    (now : Nat) :
    ((create_payment db id participant_id team_id amount method
        transaction_id receipt_path now).1.status =
      (match method with
       | PaymentMethod.online => PaymentStatus.pending
       | PaymentMethod.cash => PaymentStatus.pending_cash))
    ∧ (create_payment db id participant_id team_id amount method
        transaction_id receipt_path now).1.participant_id = participant_id
    ∧ (create_payment db id participant_id team_id amount method
        transaction_id receipt_path now).1.team_id = team_id
    ∧ (create_payment db id participant_id team_id amount method
        transaction_id receipt_path now).1.amount = amount
    ∧ (create_payment db id participant_id team_id amount method
        transaction_id receipt_path now).1.payment_method = method
    ∧ (create_payment db id participant_id team_id amount method
        transaction_id receipt_path now).1.transaction_id = transaction_id
    ∧ (create_payment db id participant_id team_id amount method
        transaction_id receipt_path now).1.receipt_path = receipt_path
    ∧ (create_payment db id participant_id team_id amount method
        transaction_id receipt_path now).2 =
        db ++ [(create_payment db id participant_id team_id amount method
          transaction_id receipt_path now).1] := by
  cases method <;> simp [create_payment]

/-! ## C1 — verify_cash preconditions -/

/-- C1 counterexample: the claim says verify_cash must fail with
InvalidState and leave the payment unchanged on a cash payment whose
status is not pending_cash.  On a cash payment in the rejected state,
crud `verify_cash_payment` instead succeeds: it moves the payment to
verified, overwrites verifier and time, and the
`POST /payments/verify-cash` endpoint reports success. -/
theorem verify_cash_ignores_status_counterexample :
    verify_cash_payment [cashRejectedPayment] 2 7 50 =
      (some { cashRejectedPayment with
                status := PaymentStatus.verified,
                verified_by := some 7, verified_at := some 50 },
        [{ cashRejectedPayment with
             status := PaymentStatus.verified,
             verified_by := some 7, verified_at := some 50 }])
    ∧ verify_cash_payment_endpoint [cashRejectedPayment] 2 7 50 =
        Except.ok ({ cashRejectedPayment with
                       status := PaymentStatus.verified,
                       verified_by := some 7, verified_at := some 50 },
          [{ cashRejectedPayment with
               status := PaymentStatus.verified,
               verified_by := some 7, verified_at := some 50 }]) := by
  constructor <;> rfl

/-- C1 (amended): the ambassador endpoint
(`POST /ambassador/verify-cash/{participant_id}`) enforces the claimed
preconditions: it fails with 404 when the participant or the payment is
absent, fails with 400 on an online-method payment and on a cash payment
whose status is not pending_cash (leaving the table untouched), and on a
cash payment in pending_cash it sets status verified and records
verifier and time.  The underlying crud `verify_cash_payment` (exposed
unguarded at `POST /payments/verify-cash`) checks only the method: it
verifies a cash payment regardless of its current status. -/
theorem ambassador_verify_cash_characterization
    (participants : List Participant) (db : List Payment)
    (pid amb now : Nat) :
    (participants.find? (fun q => q.id == pid) = none →
      ambassador_verify_cash participants db pid amb now =
        Except.error (ApiError.notFound "Participant not found"))
    ∧ (∀ pt : Participant, participants.find? (fun q => q.id == pid) = some pt →
        get_payment_by_participant db pid = none →
        ambassador_verify_cash participants db pid amb now =
          Except.error
            (ApiError.notFound "No payment record found for this participant"))
    ∧ (∀ pt : Participant, ∀ p : Payment,
        participants.find? (fun q => q.id == pid) = some pt →
        get_payment_by_participant db pid = some p →
        p.payment_method = PaymentMethod.online →
        ambassador_verify_cash participants db pid amb now =
          Except.error
            (ApiError.badRequest
              "This participant did not select cash payment method"))
    ∧ (∀ pt : Participant, ∀ p : Payment,
        participants.find? (fun q => q.id == pid) = some pt →
        get_payment_by_participant db pid = some p →
        p.payment_method = PaymentMethod.cash →
        p.status ≠ PaymentStatus.pending_cash →
        ambassador_verify_cash participants db pid amb now =
          Except.error (ApiError.badRequest "Payment status cannot be verified"))
    ∧ (∀ pt : Participant, ∀ p : Payment,
        participants.find? (fun q => q.id == pid) = some pt →
        get_payment_by_participant db pid = some p →
        p.payment_method = PaymentMethod.cash →
        p.status = PaymentStatus.pending_cash →
        ambassador_verify_cash participants db pid amb now =
          Except.ok
            ({ p with
                status := PaymentStatus.verified
                verified_by := some amb
                verified_at := some now },
              updateFirst (fun q => q.participant_id == pid)
                (fun _ => { p with
                    status := PaymentStatus.verified
                    verified_by := some amb
                    verified_at := some now }) db))
    ∧ (∀ p : Payment,
        get_payment_by_participant db pid = some p →
        p.payment_method = PaymentMethod.cash →
        (verify_cash_payment db pid amb now).1 =
          some { p with
                  status := PaymentStatus.verified
                  verified_by := some amb
                  verified_at := some now }) := by
  refine ⟨?_, ?_, ?_, ?_, ?_, ?_⟩
  · intro h
    simp [ambassador_verify_cash, h]
  · intro pt hpt hp
    simp [ambassador_verify_cash, hpt, hp]
  · intro pt p hpt hp hm
    simp [ambassador_verify_cash, hpt, hp, hm]
  · intro pt p hpt hp hm hs
    simp [ambassador_verify_cash, hpt, hp, hm, hs]
  · intro pt p hpt hp hm hs
    simp [ambassador_verify_cash, hpt, hp, hm, hs, verify_cash_payment]
  · intro p hp hm
    simp [verify_cash_payment, hp, hm]

theorem ambassador_verify_cash_characterization_witness :
    ambassador_verify_cash [examplePt] [cashPendingPayment] 2 7 50 =
      Except.ok
        ({ cashPendingPayment with
            status := PaymentStatus.verified
            verified_by := some 7
            verified_at := some 50 },
          updateFirst (fun q => q.participant_id == 2)
            (fun _ => { cashPendingPayment with
                status := PaymentStatus.verified
                verified_by := some 7
                verified_at := some 50 })
            [cashPendingPayment]) :=
  (ambassador_verify_cash_characterization [examplePt] [cashPendingPayment]
      2 7 50).2.2.2.2.1 examplePt cashPendingPayment (by rfl) (by rfl)
    (by rfl) (by rfl)

/-! ## C2 — payment status transitions -/

/-- C2 counterexample: the claim says a rejected payment is never moved
to verified and a verified payment never changes again.  On an online
payment in the rejected state, `verify_online_payment` with approve
succeeds and moves it to verified; on an online payment in the verified
state, `verify_online_payment` with reject moves it to rejected. -/
theorem verify_online_revives_rejected_counterexample :
    (verify_online_payment [onlineRejectedPayment] 1 true (some 9) 60).1 =
      some { onlineRejectedPayment with
               status := PaymentStatus.verified
               verified_by := some 9
               verified_at := some 60 }
    ∧ (verify_online_payment
        [{ onlineRejectedPayment with status := PaymentStatus.verified }]
        1 false (some 9) 60).1 =
      some { onlineRejectedPayment with status := PaymentStatus.rejected } := by
  exact ⟨rfl, rfl⟩

/-- C2 (amended): every row of the table after `verify_cash_payment` or
`verify_online_payment` is either an untouched old row, or an old row of
the matching method whose status was set to verified (cash; online
approve) or rejected (online reject) with the corresponding verifier
bookkeeping — so the operations never change the method and produce no
status other than verified or rejected.  No precondition on the prior
status is enforced, so rejected → verified (re-verification) and
verified → rejected also occur, as the counterexample shows. -/
theorem verify_transitions_amended (db : List Payment)
    (pid payid amb now : Nat) (approve : Bool) (admin_id : Option Nat)
    (q' : Payment) :
    (q' ∈ (verify_cash_payment db pid amb now).2 →
      q' ∈ db ∨ ∃ q ∈ db, q.payment_method = PaymentMethod.cash ∧
        q' = { q with
                status := PaymentStatus.verified
                verified_by := some amb
                verified_at := some now })
    ∧ (q' ∈ (verify_online_payment db payid approve admin_id now).2 →
      q' ∈ db ∨ ∃ q ∈ db, q.payment_method = PaymentMethod.online ∧
        q' = (if approve then
                { q with
                    status := PaymentStatus.verified
                    verified_by := admin_id
                    verified_at := some now }
              else { q with status := PaymentStatus.rejected })) := by
  constructor
  · intro hq
    unfold verify_cash_payment at hq
    rcases hfind : get_payment_by_participant db pid with _ | p
    · rw [hfind] at hq
      exact Or.inl hq
    · rw [hfind] at hq
      have hpmem : p ∈ db := List.mem_of_find?_eq_some hfind
      by_cases hm : p.payment_method = PaymentMethod.cash
      · simp only [hm, if_pos] at hq
        rcases mem_updateFirst hq with h | ⟨y, _, _, hxy⟩
        · exact Or.inl h
        · exact Or.inr ⟨p, hpmem, hm, by rw [hm]; exact hxy⟩
      · simp only [hm, if_neg, if_false] at hq
        exact Or.inl hq
  · intro hq
    unfold verify_online_payment at hq
    rcases hfind : get_payment_by_id db payid with _ | p
    · rw [hfind] at hq
      exact Or.inl hq
    · rw [hfind] at hq
      have hpmem : p ∈ db := List.mem_of_find?_eq_some hfind
      by_cases hm : p.payment_method = PaymentMethod.online
      · simp only [hm, if_pos] at hq
        rcases mem_updateFirst hq with h | ⟨y, _, _, hxy⟩
        · exact Or.inl h
        · exact Or.inr ⟨p, hpmem, hm, by rw [hm]; exact hxy⟩
      · simp only [hm, if_neg, if_false] at hq
        exact Or.inl hq

theorem verify_transitions_amended_witness :
    ({ cashRejectedPayment with
         status := PaymentStatus.verified
         verified_by := some 7
         verified_at := some 50 } ∈ ([cashRejectedPayment] : List Payment)
      ∨ ∃ q ∈ ([cashRejectedPayment] : List Payment),
          q.payment_method = PaymentMethod.cash ∧
          ({ cashRejectedPayment with
               status := PaymentStatus.verified
               verified_by := some 7
               verified_at := some 50 } : Payment) =
            { q with
                status := PaymentStatus.verified
                verified_by := some 7
                verified_at := some 50 }) :=
  (verify_transitions_amended [cashRejectedPayment] 2 1 7 50 true none
      { cashRejectedPayment with
          status := PaymentStatus.verified
          verified_by := some 7
          verified_at := some 50 }).1 (by decide)

/-! ## C3 — at most one payment per participant -/

theorem map_updateFirst_of_find? {α : Type} {β : Type} (g : α → β)
    (pred : α → Bool) (f : α → α) (l : List α) (y : α)
    (hfind : l.find? pred = some y) (hg : g (f y) = g y) :
    (updateFirst pred f l).map g = l.map g := by
  induction l with
  | nil => simp at hfind
  | cons a as ih =>
    by_cases ha : pred a = true
    · rw [List.find?_cons_of_pos _ ha] at hfind
      cases hfind
      simp [updateFirst, ha, hg]
    · rw [List.find?_cons_of_neg _ (by simpa using ha)] at hfind
      simp [updateFirst, ha, ih hfind]

theorem paymentsOneToOne_append {db : List Payment} {p : Payment}
    (h : paymentsOneToOne db)
    (hnone : get_payment_by_participant db p.participant_id = none) :
    paymentsOneToOne (db ++ [p]) := by
  unfold paymentsOneToOne
  rw [List.map_append, List.nodup_append]
  refine ⟨h, by simp, ?_⟩
  intro a ha hb
  simp only [List.map_cons, List.map_nil, List.mem_singleton] at hb
  rcases List.mem_map.mp ha with ⟨q, hq, rfl⟩
  have hq2 := List.find?_eq_none.mp hnone q hq
  simp only [beq_iff_eq] at hq2
  exact hq2 hb

theorem update_payment_status_oneToOne (db : List Payment)
    (payment_id : Nat) (status : PaymentStatus) (verified_by : Option Nat)
    (now : Nat) (h : paymentsOneToOne db) :
    paymentsOneToOne (update_payment_status db payment_id status verified_by now).2 := by
  unfold update_payment_status
  rcases hfind : get_payment_by_id db payment_id with _ | payment
  · simpa using h
  · simp only
    unfold paymentsOneToOne
    unfold get_payment_by_id at hfind
    rw [map_updateFirst_of_find? (fun q => q.participant_id)
        (fun q => q.id == payment_id) _ db payment hfind ?_]
    · exact h
    · by_cases hc : status = PaymentStatus.verified ∧ truthyOptNat verified_by = true
      · simp [hc]
      · simp [hc]

/-- C3: each payment-create operation — cash selection
(`select_cash_payment`), receipt upload (`upload_payment_receipt`,
once past file validation) and manual registration
(`register_cash_payment_manual`) — fails with the duplicate-payment
conflict when a Payment already exists for the participant (creating
nothing, since the request aborts), and each of them preserves the
at-most-one-Payment-per-participant invariant on every successful
outcome. -/
theorem one_payment_per_participant
    (participants : List Participant) (db : List Payment) (s : Settings)
    (caller_id new_id now pid tm_id : Nat) (file_ok : Bool) (amount : Rat)
    (tx : Option String) (rp : String)
    (h1 : paymentsOneToOne db) :
    ((get_payment_by_participant db caller_id).isSome →
      select_cash_payment participants db s caller_id new_id now =
        Except.error
          (ApiError.badRequest "Payment already exists for this participant"))
    ∧ ((get_payment_by_participant db caller_id).isSome →
      upload_payment_receipt participants db true amount tx rp caller_id new_id now =
        Except.error
          (ApiError.badRequest "Payment already exists for this participant"))
    ∧ ((get_payment_by_participant db pid).isSome →
      register_cash_payment_manual db pid amount tm_id new_id now =
        Except.error
          (ApiError.badRequest "Payment already exists for this participant"))
    ∧ (∀ p : Payment, ∀ db1 : List Payment,
        select_cash_payment participants db s caller_id new_id now =
          Except.ok (p, db1) → paymentsOneToOne db1)
    ∧ (∀ p : Payment, ∀ db1 : List Payment,
        upload_payment_receipt participants db file_ok amount tx rp
          caller_id new_id now = Except.ok (p, db1) → paymentsOneToOne db1)
    ∧ (∀ p : Option Payment, ∀ db1 : List Payment,
        register_cash_payment_manual db pid amount tm_id new_id now =
          Except.ok (p, db1) → paymentsOneToOne db1) := by
  refine ⟨?_, ?_, ?_, ?_, ?_, ?_⟩
  · intro hc
    simp [select_cash_payment, hc]
  · intro hc
    simp [upload_payment_receipt, hc]
  · intro hc
    simp [register_cash_payment_manual, hc]
  · intro p db1 hok
    by_cases hc : (get_payment_by_participant db caller_id).isSome
    · simp [select_cash_payment, hc] at hok
    · simp [select_cash_payment, hc, create_payment] at hok
      rcases hok with ⟨-, rfl⟩
      exact paymentsOneToOne_append h1
        (Option.not_isSome_iff_eq_none.mp hc)
  · intro p db1 hok
    by_cases hf : file_ok
    · by_cases hc : (get_payment_by_participant db caller_id).isSome
      · simp [upload_payment_receipt, hf, hc] at hok
      · simp [upload_payment_receipt, hf, hc, create_payment] at hok
        rcases hok with ⟨-, rfl⟩
        exact paymentsOneToOne_append h1
          (Option.not_isSome_iff_eq_none.mp hc)
    · simp [upload_payment_receipt, hf] at hok
  · intro p db1 hok
    by_cases hc : (get_payment_by_participant db pid).isSome
    · simp [register_cash_payment_manual, hc] at hok
    · simp only [register_cash_payment_manual, hc, Bool.false_eq_true,
        if_false, Except.ok.injEq, Prod.mk.injEq] at hok
      rcases hok with ⟨-, rfl⟩
      exact update_payment_status_oneToOne _ _ _ _ _
        (paymentsOneToOne_append h1 (Option.not_isSome_iff_eq_none.mp hc))

theorem one_payment_per_participant_witness :
    select_cash_payment [examplePt] [cashPendingPayment] defaultSettings
        2 9 50 =
      Except.error
        (ApiError.badRequest "Payment already exists for this participant") :=
  (one_payment_per_participant [examplePt] [cashPendingPayment]
      defaultSettings 2 9 50 3 4 true 1000 none "r"
      (by unfold paymentsOneToOne; decide)).1
    (by decide)

/-! ## C5 — team join -/

theorem updateFirst_mem_of_find? {α : Type} (pred : α → Bool) (f : α → α)
    (l : List α) (y : α) (hfind : l.find? pred = some y) :
    f y ∈ updateFirst pred f l := by
  induction l with
  | nil => simp at hfind
  | cons a as ih =>
    by_cases ha : pred a = true
    · rw [List.find?_cons_of_pos _ ha] at hfind
      cases hfind
      simp [updateFirst, ha]
    · rw [List.find?_cons_of_neg _ (by simpa using ha)] at hfind
      simp [updateFirst, ha]
      exact Or.inr (ih hfind)

/-- C5: `join_team` fails with "Invalid team code" (NotFound) when no
team has the given code; fails with "Team is full" (CapacityExceeded)
when the member count is at least `TEAM_MAX_SIZE` (whose configured
default is 5); otherwise it returns the team and attaches the joining
participant by setting only their `team_id` — every participants
`is_team_lead` flag is unchanged — and after any successful join the
teams member count stays at most `TEAM_MAX_SIZE`. -/
theorem join_team_characterization (s : Settings) (teams : List Team)
    (participants : List Participant) (code : String) (pid : Nat) :
    defaultSettings.TEAM_MAX_SIZE = 5
    ∧ (teams.find? (fun t => t.code == code) = none →
        join_team s teams participants code pid =
          Except.error TeamJoinError.invalidTeamCode)
    ∧ (∀ team : Team, teams.find? (fun t => t.code == code) = some team →
        s.TEAM_MAX_SIZE ≤ teamMemberCount participants team.id →
        join_team s teams participants code pid =
          Except.error TeamJoinError.teamFull)
    ∧ (∀ team : Team, teams.find? (fun t => t.code == code) = some team →
        teamMemberCount participants team.id < s.TEAM_MAX_SIZE →
        join_team s teams participants code pid =
          Except.ok (team,
            updateFirst (fun pt => pt.id == pid)
              (fun pt => { pt with team_id := some team.id }) participants))
    ∧ (∀ team2 : Team, ∀ parts2 : List Participant,
        join_team s teams participants code pid = Except.ok (team2, parts2) →
        parts2.map (fun pt => pt.is_team_lead) =
          participants.map (fun pt => pt.is_team_lead))
    ∧ (∀ team2 : Team, ∀ parts2 : List Participant, ∀ pt : Participant,
        join_team s teams participants code pid = Except.ok (team2, parts2) →
        participants.find? (fun q => q.id == pid) = some pt →
        { pt with team_id := some team2.id } ∈ parts2)
    ∧ (∀ team2 : Team, ∀ parts2 : List Participant,
        join_team s teams participants code pid = Except.ok (team2, parts2) →
        teamMemberCount parts2 team2.id ≤ s.TEAM_MAX_SIZE) := by
  refine ⟨rfl, ?_, ?_, ?_, ?_, ?_, ?_⟩
  · intro h
    simp [join_team, h]
  · intro team hf hcap
    simp [join_team, hf, teamMemberCount] at hcap ⊢
    omega
  · intro team hf hcap
    simp [join_team, hf, teamMemberCount] at hcap ⊢
    omega
  · intro team2 parts2 hok
    unfold join_team at hok
    rcases hf : teams.find? (fun t => t.code == code) with _ | team
    · rw [hf] at hok
      cases hok
    · rw [hf] at hok
      by_cases hcap : s.TEAM_MAX_SIZE ≤
          (participants.filter (fun pt => pt.team_id == some team.id)).length
      · simp [hcap] at hok
      · simp [hcap] at hok
        rcases hok with ⟨-, rfl⟩
        exact map_updateFirst _ _ _ _ (fun y => rfl)
  · intro team2 parts2 pt hok hfindpt
    unfold join_team at hok
    rcases hf : teams.find? (fun t => t.code == code) with _ | team
    · rw [hf] at hok
      cases hok
    · rw [hf] at hok
      by_cases hcap : s.TEAM_MAX_SIZE ≤
          (participants.filter (fun q => q.team_id == some team.id)).length
      · simp [hcap] at hok
      · simp [hcap] at hok
        rcases hok with ⟨rfl, rfl⟩
        exact updateFirst_mem_of_find? _ _ _ pt hfindpt
  · intro team2 parts2 hok
    unfold join_team at hok
    rcases hf : teams.find? (fun t => t.code == code) with _ | team
    · rw [hf] at hok
      cases hok
    · rw [hf] at hok
      by_cases hcap : s.TEAM_MAX_SIZE ≤
          (participants.filter (fun q => q.team_id == some team.id)).length
      · simp [hcap] at hok
      · simp [hcap] at hok
        rcases hok with ⟨rfl, rfl⟩
        have hle := length_filter_updateFirst_le
          (fun q => q.team_id == some team.id) (fun q => q.id == pid)
          (fun q => { q with team_id := some team.id }) participants
        unfold teamMemberCount
        omega

theorem join_team_characterization_witness :
    join_team defaultSettings
        [{ id := 1, name := "T", code := "ABCD1234", track := "gaming" }]
        [examplePt] "ABCD1234" 2 =
      Except.ok
        ({ id := 1, name := "T", code := "ABCD1234", track := "gaming" },
          updateFirst (fun pt => pt.id == 2)
            (fun pt => { pt with team_id := some 1 }) [examplePt]) :=
  (join_team_characterization defaultSettings
      [{ id := 1, name := "T", code := "ABCD1234", track := "gaming" }]
      [examplePt] "ABCD1234" 2).2.2.2.1
    { id := 1, name := "T", code := "ABCD1234", track := "gaming" }
    (by decide) (by decide)

/-! ## C7 — check-in gated on verified payment -/

/-- C7: `check_in_participant` appends a CheckIn row only when the
participants Payment exists and is verified (so every successful
check-in carries a verified payment), and for an existing participant
whose Payment is absent or in any non-verified status the request is
rejected with the 400 "Participant payment not verified" error
(InvalidState), appending nothing. -/
theorem check_in_requires_verified_payment
    (participants : List Participant) (payments : List Payment)
    (checkins : List CheckIn) (pid : Nat) (event_type : String)
    (admin_id now : Nat) :
    (∀ c : CheckIn, ∀ cs' : List CheckIn,
      check_in_participant participants payments checkins pid event_type
        admin_id now = Except.ok (c, cs') →
      (∃ p : Payment, get_payment_by_participant payments pid = some p ∧
        p.status = PaymentStatus.verified) ∧ cs' = checkins ++ [c])
    ∧ (∀ pt : Participant,
        participants.find? (fun q => q.id == pid) = some pt →
        get_payment_by_participant payments pid = none →
        check_in_participant participants payments checkins pid event_type
          admin_id now = Except.error CheckInError.paymentNotVerified)
    ∧ (∀ pt : Participant, ∀ p : Payment,
        participants.find? (fun q => q.id == pid) = some pt →
        get_payment_by_participant payments pid = some p →
        p.status ≠ PaymentStatus.verified →
        check_in_participant participants payments checkins pid event_type
          admin_id now = Except.error CheckInError.paymentNotVerified) := by
  refine ⟨?_, ?_, ?_⟩
  · intro c cs' hok
    unfold check_in_participant at hok
    rcases hpt : participants.find? (fun q => q.id == pid) with _ | pt
    · rw [hpt] at hok
      cases hok
    · rw [hpt] at hok
      rcases hp : get_payment_by_participant payments pid with _ | p
      · rw [hp] at hok
        simp [Option.any] at hok
      · rw [hp] at hok
        by_cases hs : p.status = PaymentStatus.verified
        · simp only [hs, Option.any_some, beq_self_eq_true, Bool.not_true,
            Bool.false_eq_true, if_false] at hok
          by_cases hdup : (checkins.find? (fun q =>
              q.participant_id == pid && q.event_type == event_type)).isSome
          · simp [hdup] at hok
          · simp only [hdup, Bool.false_eq_true, if_false] at hok
            cases hok
            exact ⟨⟨p, rfl, hs⟩, rfl⟩
        · exfalso
          simp [Option.any, hs] at hok
  · intro pt hpt hp
    simp [check_in_participant, hpt, hp, Option.any]
  · intro pt p hpt hp hs
    simp [check_in_participant, hpt, hp, Option.any, hs]

theorem check_in_requires_verified_payment_witness :
    check_in_participant [examplePt] [cashPendingPayment] [] 2
        "opening_ceremony" 9 70 = Except.error CheckInError.paymentNotVerified :=
  (check_in_requires_verified_payment [examplePt] [cashPendingPayment] []
      2 "opening_ceremony" 9 70).2.2 examplePt cashPendingPayment
    (by decide) (by decide) (by decide)

/-! ## C8 — at most one check-in per (participant, event_type) -/

/-- C8: a check-in attempt for a (participant, event_type) pair that
already has a CheckIn row never succeeds (so it appends nothing), and
`check_in_participant` preserves the uniqueness of
(participant, event_type) pairs across the check-in log on every
successful outcome. -/
theorem check_in_unique_pairs
    (participants : List Participant) (payments : List Payment)
    (checkins : List CheckIn) (pid : Nat) (event_type : String)
    (admin_id now : Nat) :
    ((∃ c ∈ checkins, c.participant_id = pid ∧ c.event_type = event_type) →
      ∀ r : CheckIn × List CheckIn,
        check_in_participant participants payments checkins pid event_type
          admin_id now ≠ Except.ok r)
    ∧ (checkInsUnique checkins →
      ∀ c : CheckIn, ∀ cs' : List CheckIn,
        check_in_participant participants payments checkins pid event_type
          admin_id now = Except.ok (c, cs') → checkInsUnique cs') := by
  constructor
  · rintro ⟨c0, hc0, hcpid, hcev⟩ r hok
    unfold check_in_participant at hok
    rcases hpt : participants.find? (fun q => q.id == pid) with _ | pt
    · rw [hpt] at hok
      cases hok
    · rw [hpt] at hok
      rcases hp : get_payment_by_participant payments pid with _ | p
      · rw [hp] at hok
        simp [Option.any] at hok
      · rw [hp] at hok
        by_cases hs : p.status = PaymentStatus.verified
        · have hdup : (checkins.find? (fun q =>
              q.participant_id == pid && q.event_type == event_type)).isSome := by
            rw [List.find?_isSome]
            exact ⟨c0, hc0, by simp [hcpid, hcev]⟩
          simp [Option.any, hs, hdup] at hok
        · simp [Option.any, hs] at hok
  · intro huniq c cs' hok
    unfold check_in_participant at hok
    rcases hpt : participants.find? (fun q => q.id == pid) with _ | pt
    · rw [hpt] at hok
      cases hok
    · rw [hpt] at hok
      rcases hp : get_payment_by_participant payments pid with _ | p
      · rw [hp] at hok
        simp [Option.any] at hok
      · rw [hp] at hok
        by_cases hs : p.status = PaymentStatus.verified
        · simp only [hs, Option.any_some, beq_self_eq_true, Bool.not_true,
            Bool.false_eq_true, if_false] at hok
          by_cases hdup : (checkins.find? (fun q =>
              q.participant_id == pid && q.event_type == event_type)).isSome
          · simp [hdup] at hok
          · simp only [hdup, Bool.false_eq_true, if_false] at hok
            cases hok
            unfold checkInsUnique at huniq ⊢
            rw [List.map_append, List.nodup_append]
            refine ⟨huniq, by simp, ?_⟩
            intro a ha hb
            simp only [List.map_cons, List.map_nil, List.mem_singleton] at hb
            rcases List.mem_map.mp ha with ⟨q, hq, rfl⟩
            have hnone := List.find?_eq_none.mp
              (Option.not_isSome_iff_eq_none.mp hdup) q hq
            simp only [Bool.and_eq_true, beq_iff_eq, not_and] at hnone
            have h1 : q.participant_id = pid := by
              have := congrArg Prod.fst hb
              simpa using this
            have h2 : q.event_type = event_type := by
              have := congrArg Prod.snd hb
              simpa using this
            exact hnone h1 h2
        · simp [Option.any, hs] at hok

theorem check_in_unique_pairs_witness :
    check_in_participant [examplePt]
        [{ cashPendingPayment with status := PaymentStatus.verified }]
        [exampleCheckIn] 2 "opening_ceremony" 9 70 ≠
      Except.ok
        ({ exampleCheckIn with checked_in_at := 70 },
          [exampleCheckIn, { exampleCheckIn with checked_in_at := 70 }]) :=
  (check_in_unique_pairs [examplePt]
      [{ cashPendingPayment with status := PaymentStatus.verified }]
      [exampleCheckIn] 2 "opening_ceremony" 9 70).1
    ⟨exampleCheckIn, by simp, rfl, rfl⟩
    ({ exampleCheckIn with checked_in_at := 70 },
      [exampleCheckIn, { exampleCheckIn with checked_in_at := 70 }])

/-! ## C10 — rejection frame -/

/-- C10: `verify_online_payment` with approve = false on an existing
online payment changes only the status field (to rejected): verifier
identity, verification timestamp, amount, method, transaction reference
and receipt location are all left as they were, so the rejection itself
records no verifier. -/
theorem verify_online_reject_frame (db : List Payment) (payment_id : Nat)
    (admin_id : Option Nat) (now : Nat) (p : Payment)
    (hp : get_payment_by_id db payment_id = some p)
    (hm : p.payment_method = PaymentMethod.online) :
    (verify_online_payment db payment_id false admin_id now).1 =
      some { p with status := PaymentStatus.rejected }
    ∧ (verify_online_payment db payment_id false admin_id now).2 =
        updateFirst (fun q => q.id == payment_id)
          (fun _ => { p with status := PaymentStatus.rejected }) db
    ∧ ({ p with status := PaymentStatus.rejected } : Payment).status =
        PaymentStatus.rejected
    ∧ ({ p with status := PaymentStatus.rejected } : Payment).verified_by =
        p.verified_by
    ∧ ({ p with status := PaymentStatus.rejected } : Payment).verified_at =
        p.verified_at
    ∧ ({ p with status := PaymentStatus.rejected } : Payment).amount = p.amount
    ∧ ({ p with status := PaymentStatus.rejected } : Payment).payment_method =
        p.payment_method
    ∧ ({ p with status := PaymentStatus.rejected } : Payment).transaction_id =
        p.transaction_id
    ∧ ({ p with status := PaymentStatus.rejected } : Payment).receipt_path =
        p.receipt_path := by
  refine ⟨?_, ?_, rfl, rfl, rfl, rfl, rfl, rfl, rfl⟩
  · simp [verify_online_payment, hp, hm]
  · simp [verify_online_payment, hp, hm]

theorem verify_online_reject_frame_witness :
    (verify_online_payment
        [{ onlineRejectedPayment with
             status := PaymentStatus.pending
             verified_by := none
             verified_at := none }] 1 false (some 9) 60).1 =
      some { onlineRejectedPayment with status := PaymentStatus.rejected } ∧
    ({ onlineRejectedPayment with
        status := PaymentStatus.rejected } : Payment).verified_by = none :=
  ⟨((verify_online_reject_frame
      [{ onlineRejectedPayment with
           status := PaymentStatus.pending
           verified_by := none
           verified_at := none }] 1 (some 9) 60
      { onlineRejectedPayment with
          status := PaymentStatus.pending
          verified_by := none
          verified_at := none }
      (by decide) (by decide)).1), rfl⟩

/-! ## C9 — QR verification -/

theorem except_bind_ok {ε : Type} {α : Type} {β : Type} (a : α)
    (f : α → Except ε β) :
    (Except.ok a : Except ε α) >>= f = f a := rfl

theorem allFieldsIn_obj (fields : List String) (kvs : List (String × Json)) :
    allFieldsIn fields (Json.obj kvs) =
      Except.ok (fields.all (fun f => kvs.any (fun kv => kv.1 == f))) := by
  induction fields with
  | nil => rfl
  | cons f fs ih =>
    by_cases h : kvs.any (fun kv => kv.1 == f) = true
    · simp [allFieldsIn, pyContains, except_bind_ok, h, ih]
    · simp [allFieldsIn, pyContains, except_bind_ok, h]

/-- C9 counterexample: the claim says `verify_qr_code` returns
valid = false whenever the payload is well-formed JSON missing the
required claims.  The payload `5` is well-formed JSON with no claims at
all, yet the source raises an uncaught `TypeError` (the membership test
`"participant_id" in 5` on a non-iterable) instead of returning a
result. -/
theorem verify_qr_non_dict_counterexample :
    verify_qr_code (some (Json.num 5)) = Except.error PyErr.typeError := rfl

/-- C9 (amended): for payloads whose JSON top level is an object,
`verify_qr_code` returns valid = true exactly when every required claim
(participant_id, name, email, track, event) is present, the event claim
equals the expected identifier, and the validity flag is present and
truthy (so valid = false exactly when one of those fails — including a
falsy non-Boolean flag such as 0, which the original "absent or false"
wording misses); a payload that is not well-formed JSON yields
valid = false; a well-formed payload whose top level is not an object
yields valid = false or raises an uncaught TypeError/AttributeError (see
the counterexample); and every ticket payload produced by
`generate_qr_code` verifies to valid = true with the decoded claims. -/
theorem verify_qr_characterization (kvs : List (String × Json))
    (pid : Nat) (nm em tr gen : String) (team : Option String) :
    verify_qr_code none =
      Except.ok (QrVerifyResult.invalid "Invalid QR code data")
    ∧ (verify_qr_code (some (Json.obj kvs)) =
        Except.ok (QrVerifyResult.valid (Json.obj kvs)) ↔
          (required_fields.all (fun f => kvs.any (fun kv => kv.1 == f)) = true
          ∧ jsonEqStr (objGet kvs "event" Json.null) devconEvent = true
          ∧ pyTruthy (objGet kvs "valid" (Json.bool false)) = true))
    ∧ (∀ e : PyErr, verify_qr_code (some (Json.obj kvs)) ≠ Except.error e)
    ∧ verify_qr_code (some (qr_payload pid nm em tr team gen)) =
        Except.ok (QrVerifyResult.valid (qr_payload pid nm em tr team gen)) := by
  refine ⟨rfl, ?_, ?_, ?_⟩
  · simp only [verify_qr_code, allFieldsIn_obj, pyGet, except_bind_ok]
    by_cases h1 : required_fields.all (fun f => kvs.any (fun kv => kv.1 == f)) = true
    · by_cases h2 : jsonEqStr (objGet kvs "event" Json.null) devconEvent = true
      · by_cases h3 : pyTruthy (objGet kvs "valid" (Json.bool false)) = true
        · simp [h1, h2, h3]
        · simp [h1, h2, h3]
      · simp [h1, h2]
    · simp [h1]
  · intro e
    simp only [verify_qr_code, allFieldsIn_obj, pyGet, except_bind_ok]
    by_cases h1 : required_fields.all (fun f => kvs.any (fun kv => kv.1 == f)) = true
    · by_cases h2 : jsonEqStr (objGet kvs "event" Json.null) devconEvent = true
      · by_cases h3 : pyTruthy (objGet kvs "valid" (Json.bool false)) = true
        · simp [h1, h2, h3]
        · simp [h1, h2, h3]
      · simp [h1, h2]
    · simp [h1]
  · cases team
    · rfl
    · rfl

theorem verify_qr_characterization_witness :
    verify_qr_code (some (qr_payload 3 "Ada" "ada@x.com" "gaming"
        (some "Team X") "2026-01-01T00:00:00")) =
      Except.ok (QrVerifyResult.valid (qr_payload 3 "Ada" "ada@x.com"
        "gaming" (some "Team X") "2026-01-01T00:00:00")) :=
  (verify_qr_characterization [] 3 "Ada" "ada@x.com" "gaming"
      "2026-01-01T00:00:00" (some "Team X")).2.2.2

end Devcon
